import Mathlib

/-!
Verification of the muta binding-macro core (src/core/binding-macro/src/lib.rs):
the signature validator behind the read and write attributes, the cycle-cost
injector, the service binder's generated dispatch entry points, and the hook
attributes. The attribute entry points in lib.rs delegate to modules
(read_write, cycles, servive) whose sources are not in the tree; those parts
are modelled from the specification and from the documented expansions in the
lib.rs doc comments. The hook attributes themselves are fully present in
lib.rs and are embedded directly.
-/

namespace Muta

/-- A token stream, abstracted as a list of tokens. The attribute entry
points in lib.rs consume and produce values of this type. -/
def TokenStream := List String

instance : DecidableEq TokenStream :=
  inferInstanceAs (DecidableEq (List String))

/-- The hook_before attribute entry point, embedded from
src/core/binding-macro/src/lib.rs lines 116-119: it ignores the attribute
argument stream and returns the annotated item's token stream unchanged,
performing no validation. -/
def hook_before (_attr : TokenStream) (item : TokenStream) : TokenStream :=
  item

/-- The hook_after attribute entry point, embedded from
src/core/binding-macro/src/lib.rs lines 109-112: it ignores the attribute
argument stream and returns the annotated item's token stream unchanged,
performing no validation. -/
def hook_after (_attr : TokenStream) (item : TokenStream) : TokenStream :=
  item

/-- Receiver shape of a method declaration. -/
inductive Receiver
  | selfNone
  | shared
  | exclusive
deriving DecidableEq

/-- A generic type parameter with its trait bound. -/
structure GenericParam where
  name : String
  bound : String
deriving DecidableEq

/-- A non-receiver parameter of a method: its name and its type. -/
structure Param where
  name : String
  ty : String
deriving DecidableEq

/-- A method declaration as seen by the signature validator: its name,
whether it sits in an impl block registered as a service, its visibility,
its generic parameters, its receiver, its remaining parameters, its return
type, and its body tokens. -/
structure MethodDecl where
  name : String
  inServiceImpl : Bool
  isPublic : Bool
  generics : List GenericParam
  receiver : Receiver
  params : List Param
  returnType : String
  body : List String
deriving DecidableEq

/-- The five constraints the signature validator checks, in order. -/
inductive SigRule
  | serviceMembership
  | privateVisibility
  | contextGeneric
  | receiverShape
  | returnShape
deriving DecidableEq

/-- A build-time signature error: the violated rule and the offending
method's name. -/
structure SignatureError where
  rule : SigRule
  methodName : String
deriving DecidableEq

/-- The name of the single context type parameter, when the declaration has
exactly one generic parameter bounded by RequestContext. -/
def contextParamName (d : MethodDecl) : Option String :=
  match d.generics with
  | [g] => if g.bound = "RequestContext" then some g.name else none
  | _ => none

/-- Constraint 1: the method belongs to an impl block registered as a
service. -/
def check1 (d : MethodDecl) : Bool :=
  d.inServiceImpl

/-- Constraint 2: the method's visibility is private. -/
def check2 (d : MethodDecl) : Bool :=
  !d.isPublic

/-- Constraint 3: exactly one generic type parameter, bounded by the
context capability. -/
def check3 (d : MethodDecl) : Bool :=
  (contextParamName d).isSome

/-- Constraint 4: the receiver matches the role (shared for read, exclusive
for write) and the second parameter has the context type from constraint 3. -/
def check4 (d : MethodDecl) (iswrite : Bool) : Bool :=
  (if iswrite then decide (d.receiver = Receiver.exclusive)
   else decide (d.receiver = Receiver.shared)) &&
  (match contextParamName d, d.params with
   | some cn, p :: _ => decide (p.ty = cn)
   | _, _ => false)

/-- Constraint 5: the return type is the protocol result of String. -/
def check5 (d : MethodDecl) : Bool :=
  decide (d.returnType = "ProtocolResult<String>")

/-- Modelled from the spec: verify_read_or_write, the signature validator
called by the read and write attribute entry points (lib.rs lines 43-45 and
77-79; the read_write module itself is absent from the tree). It checks the
five constraints in order, fails with a SignatureError naming the first
violated constraint, and otherwise returns the declaration unchanged. -/
def verify_read_or_write (d : MethodDecl) (iswrite : Bool) :
    Except SignatureError MethodDecl :=
  if check1 d then
    if check2 d then
      if check3 d then
        if check4 d iswrite then
          if check5 d then Except.ok d
          else Except.error ⟨SigRule.returnShape, d.name⟩
        else Except.error ⟨SigRule.receiverShape, d.name⟩
      else Except.error ⟨SigRule.contextGeneric, d.name⟩
    else Except.error ⟨SigRule.privateVisibility, d.name⟩
  else Except.error ⟨SigRule.serviceMembership, d.name⟩

/-- The five checks of the validator, paired with their rules, in the fixed
checking order. -/
def checksFor (d : MethodDecl) (iswrite : Bool) : List (SigRule × Bool) :=
  [(SigRule.serviceMembership, check1 d),
   (SigRule.privateVisibility, check2 d),
   (SigRule.contextGeneric, check3 d),
   (SigRule.receiverShape, check4 d iswrite),
   (SigRule.returnShape, check5 d)]

/-- The first violated constraint, if any: the first check in the fixed
order whose boolean is false. -/
def firstViolation (d : MethodDecl) (iswrite : Bool) : Option SigRule :=
  ((checksFor d iswrite).find? (fun p => !p.2)).map Prod.fst

theorem verify_ok_iff (d : MethodDecl) (iswrite : Bool) (d2 : MethodDecl) :
    verify_read_or_write d iswrite = Except.ok d2 ↔
      d2 = d ∧ check1 d = true ∧ check2 d = true ∧ check3 d = true ∧
        check4 d iswrite = true ∧ check5 d = true := by
  cases h1 : check1 d <;> cases h2 : check2 d <;> cases h3 : check3 d <;>
    cases h4 : check4 d iswrite <;> cases h5 : check5 d <;>
      simp [verify_read_or_write, h1, h2, h3, h4, h5, eq_comm]

/-- A well-formed read method declaration, used to instantiate the validator
theorems at a concrete input. -/
def dGoodRead : MethodDecl :=
  ⟨"test_read_fn", true, false, [⟨"Context", "RequestContext"⟩],
   Receiver.shared, [⟨"ctx", "Context"⟩], "ProtocolResult<String>", []⟩

/-- A write-tagged method declaration with a shared receiver, which the
validator must reject. -/
def dSharedWrite : MethodDecl :=
  ⟨"bad_write_fn", true, false, [⟨"Context", "RequestContext"⟩],
   Receiver.shared, [⟨"ctx", "Context"⟩], "ProtocolResult<String>", []⟩

/-- A method declaration outside any service impl block. -/
def dOutsideService : MethodDecl :=
  ⟨"stray_fn", false, false, [⟨"Context", "RequestContext"⟩],
   Receiver.shared, [⟨"ctx", "Context"⟩], "ProtocolResult<String>", []⟩

/-- C1: every method accepted by the signature validator has a receiver
matching the required role (shared for read, exclusive for write) and a
second parameter of the context-capability-bounded type, and a write-tagged
method with a shared receiver is rejected. -/
theorem c1_receiver_matches_role :
    (∀ (d : MethodDecl) (iswrite : Bool) (d2 : MethodDecl),
        verify_read_or_write d iswrite = Except.ok d2 →
          (iswrite = false → d2.receiver = Receiver.shared) ∧
          (iswrite = true → d2.receiver = Receiver.exclusive) ∧
          ∃ cn, contextParamName d2 = some cn ∧
            d2.params.head?.map Param.ty = some cn) ∧
    (∀ d : MethodDecl, d.receiver = Receiver.shared →
        ∀ d2, verify_read_or_write d true ≠ Except.ok d2) := by
  have hrecv : ∀ (d : MethodDecl) (iswrite : Bool),
      check4 d iswrite = true →
        (iswrite = false → d.receiver = Receiver.shared) ∧
        (iswrite = true → d.receiver = Receiver.exclusive) ∧
        ∃ cn, contextParamName d = some cn ∧
          d.params.head?.map Param.ty = some cn := by
    intro d iswrite h4
    rw [check4, Bool.and_eq_true] at h4
    obtain ⟨hr, hp⟩ := h4
    refine ⟨?_, ?_, ?_⟩
    · intro hw; subst hw; simpa using hr
    · intro hw; subst hw; simpa using hr
    · cases hcn : contextParamName d with
      | none => rw [hcn] at hp; cases hd : d.params <;> rw [hd] at hp <;> simp at hp
      | some cn =>
        rw [hcn] at hp
        cases hd : d.params with
        | nil => rw [hd] at hp; simp at hp
        | cons p rest =>
          rw [hd] at hp
          simp only [decide_eq_true_eq] at hp
          exact ⟨cn, rfl, by simp [hd, hp]⟩
  constructor
  · intro d iswrite d2 h
    rw [verify_ok_iff] at h
    obtain ⟨hd2, _, _, _, h4, _⟩ := h
    rw [hd2]
    exact hrecv d iswrite h4
  · intro d hshared d2 h
    rw [verify_ok_iff] at h
    have := ((hrecv d true h.2.2.2.2.1).2.1) rfl
    rw [hshared] at this
    exact Receiver.noConfusion this

/-- Witness for C1: the validator accepts the concrete well-formed read
method, whose receiver is shared, and rejects the concrete shared-receiver
write-tagged method. -/
theorem c1_witness :
    dGoodRead.receiver = Receiver.shared ∧
      verify_read_or_write dSharedWrite true ≠ Except.ok dSharedWrite :=
  ⟨(c1_receiver_matches_role.1 dGoodRead false dGoodRead rfl).1 rfl,
   c1_receiver_matches_role.2 dSharedWrite rfl dSharedWrite⟩

/-- C3: for every declaration and role, the validator either returns the
declaration unchanged, exactly when no constraint fails, or fails with a
SignatureError naming the first failing constraint in the fixed checking
order. -/
theorem c3_first_failure_reported (d : MethodDecl) (iswrite : Bool) :
    (∀ d2, verify_read_or_write d iswrite = Except.ok d2 → d2 = d) ∧
    (verify_read_or_write d iswrite = Except.ok d ↔
      firstViolation d iswrite = none) ∧
    (∀ r, verify_read_or_write d iswrite = Except.error ⟨r, d.name⟩ ↔
      firstViolation d iswrite = some r) := by
  refine ⟨?_, ?_, ?_⟩ <;>
    cases h1 : check1 d <;> cases h2 : check2 d <;> cases h3 : check3 d <;>
      cases h4 : check4 d iswrite <;> cases h5 : check5 d <;>
        simp [verify_read_or_write, firstViolation, checksFor, List.find?,
          h1, h2, h3, h4, h5, eq_comm]

/-- Witness for C3: at the concrete declaration outside a service impl, the
first (and only reported) violation is service membership. -/
theorem c3_witness :
    firstViolation dOutsideService false = some SigRule.serviceMembership :=
  ((c3_first_failure_reported dOutsideService false).2.2
    SigRule.serviceMembership).mp rfl

/-- Runtime errors of the dispatch layer and of handlers, after conversion
into the uniform protocol error: a missing method name, a payload decode
failure carrying the underlying diagnostic, budget exhaustion from
sub_cycles, and handler-local errors. -/
inductive ServiceError
  | notFoundMethod (name : String)
  | jsonParse (underlying : String)
  | budgetExceeded
  | custom (msg : String)
deriving DecidableEq

/-- A decoded payload value, the typed result of decoding a raw payload
string. -/
inductive Value
  | unit
  | num (n : Nat)
  | str (s : String)
deriving DecidableEq

/-- The per-call data carried by a context capability: the requested method
name and the raw payload string. -/
structure CtxData where
  get_service_method : String
  get_payload : String
deriving DecidableEq

/-- The execution budget carried by the context capability. -/
abbrev Budget := Nat

/-- Modelled from the spec: the context capability's sub_cycles operation
(the capability is external to this core and consumed only). It deducts the
amount from the budget, or fails with budget exhaustion when the budget is
too small. -/
def sub_cycles (amount : Nat) (b : Budget) : Except ServiceError Budget :=
  if amount ≤ b then Except.ok (b - amount) else Except.error ServiceError.budgetExceeded

/-- Modelled from the spec: gen_cycles_code, the cycle-cost injector called
by the cycles attribute entry point (lib.rs lines 103-105; the cycles module
itself is absent from the tree, and lib.rs lines 85-100 document the
expansion). The produced method first calls sub_cycles with the build-time
cost; on failure it returns that failure at once with the state untouched,
on success the original body runs on the reduced budget. -/
def gen_cycles_code {α : Type} (cost : Nat)
    (body : Budget → α → Except ServiceError String × Budget × α)
    (b : Budget) (s : α) : Except ServiceError String × Budget × α :=
  match sub_cycles cost b with
  | Except.error e => (Except.error e, b, s)
  | Except.ok b2 => body b2 s

/-- Modelled from the spec: the same cycle-cost injection instantiated at a
read-shaped method, whose shared receiver means the body returns no updated
service state (the documented expansion in lib.rs lines 85-100 wraps such a
shared-receiver method). The charge comes first; on failure the method
returns at once with the budget untouched, on success the original body
runs on the reduced budget. -/
def gen_cycles_code_read {α : Type} (cost : Nat)
    (body : Budget → α → Except ServiceError String × Budget)
    (b : Budget) (s : α) : Except ServiceError String × Budget :=
  match sub_cycles cost b with
  | Except.error e => (Except.error e, b)
  | Except.ok b2 => body b2 s

/-- A read-method dispatch entry: the method name, the payload decoder, and
the handler body, which takes the context, the decoded payload, the budget
and a shared view of the service state, and returns its result and the
remaining budget. -/
structure ReadEntry (S : Type) where
  name : String
  decode : String → Except String Value
  body : CtxData → Value → Budget → S → Except ServiceError String × Budget

/-- A write-method dispatch entry: as ReadEntry, but the handler holds the
service state exclusively and returns its updated value. -/
structure WriteEntry (S : Type) where
  name : String
  decode : String → Except String Value
  body : CtxData → Value → Budget → S → Except ServiceError String × Budget × S

/-- Modelled from the spec: the generated read entry point (the servive
module is absent from the tree; lib.rs lines 200-211 document the
expansion). It matches the context's method name against the read table; on
no match it fails with the not-found error carrying that name; on decode
failure it fails with the parse error carrying the underlying diagnostic;
otherwise it invokes the matched handler and returns its result unchanged. -/
def read {S : Type} (table : List (ReadEntry S)) (ctx : CtxData)
    (b : Budget) (s : S) : Except ServiceError String × Budget :=
  match table.find? (fun e => e.name == ctx.get_service_method) with
  | none => (Except.error (ServiceError.notFoundMethod ctx.get_service_method), b)
  | some e =>
    match e.decode ctx.get_payload with
    | Except.error msg => (Except.error (ServiceError.jsonParse msg), b)
    | Except.ok v => e.body ctx v b s

/-- Modelled from the spec: the generated write entry point (the servive
module is absent from the tree; lib.rs lines 187-198 document the
expansion). Identical protocol to read, over the write table, with the
exclusive state threaded through. -/
def write {S : Type} (table : List (WriteEntry S)) (ctx : CtxData)
    (b : Budget) (s : S) : Except ServiceError String × Budget × S :=
  match table.find? (fun e => e.name == ctx.get_service_method) with
  | none => (Except.error (ServiceError.notFoundMethod ctx.get_service_method), b, s)
  | some e =>
    match e.decode ctx.get_payload with
    | Except.error msg => (Except.error (ServiceError.jsonParse msg), b, s)
    | Except.ok v => e.body ctx v b s

/-- An optional custom hook method on the service type: it may mutate the
service state and report a protocol error. -/
abbrev Hook (S : Type) := S → Except ServiceError Unit × S

/-- Modelled from the spec: the synthesized hook dispatch. When the type
declares a custom hook method the generated function forwards to it;
otherwise it is a no-op returning success. -/
def gen_hook {S : Type} (custom : Option (Hook S)) : Hook S :=
  fun s =>
    match custom with
    | some f => f s
    | none => (Except.ok (), s)

/-- The declared surface of one service type handed to the binder: its read
methods, its write methods, and its optional custom hooks. -/
structure ServiceDef (S : Type) where
  readMethods : List (ReadEntry S)
  writeMethods : List (WriteEntry S)
  hookBefore : Option (Hook S)
  hookAfter : Option (Hook S)

/-- The generated service surface: the synthesized hook pair and the two
dispatch entry points. -/
structure GeneratedService (S : Type) where
  hook_before : Hook S
  hook_after : Hook S
  readEntry : CtxData → Budget → S → Except ServiceError String × Budget
  writeEntry : CtxData → Budget → S → Except ServiceError String × Budget × S

/-- A build-time binder error: two methods of one role share a dispatch
name. -/
inductive BuildError
  | ambiguousDispatch (name : String)
deriving DecidableEq

/-- The first name occurring twice in the list, if any. -/
def firstDup : List String → Option String
  | [] => none
  | n :: ns => if n ∈ ns then some n else firstDup ns

/-- Whether a binder result is the ambiguous-dispatch build failure. -/
def isAmbiguousDispatchError {S : Type}
    (r : Except BuildError (GeneratedService S)) : Bool :=
  match r with
  | Except.error (BuildError.ambiguousDispatch _) => true
  | _ => false

/-- Modelled from the spec: gen_service_code, the service binder called by
the service attribute entry point (lib.rs lines 215-217; the servive module
itself is absent from the tree). Name collisions within one role are a
build-time ambiguous-dispatch error; otherwise the binder emits the hook
pair and the two dispatch entry points over the declared method tables. -/
def gen_service_code {S : Type} (sv : ServiceDef S) :
    Except BuildError (GeneratedService S) :=
  match firstDup (sv.readMethods.map ReadEntry.name) with
  | some n => Except.error (BuildError.ambiguousDispatch n)
  | none =>
    match firstDup (sv.writeMethods.map WriteEntry.name) with
    | some n => Except.error (BuildError.ambiguousDispatch n)
    | none =>
      Except.ok ⟨gen_hook sv.hookBefore, gen_hook sv.hookAfter,
        read sv.readMethods, write sv.writeMethods⟩

theorem firstDup_eq_none_iff (l : List String) :
    firstDup l = none ↔ l.Nodup := by
  induction l with
  | nil => simp [firstDup]
  | cons n ns ih =>
    by_cases h : n ∈ ns
    · simp [firstDup, h]
    · simp [firstDup, h, ih]

/-- A concrete payload decoder used by the witness services: it accepts the
literal payload "7" and reports any other raw payload as unparseable. -/
def decodeNum : String → Except String Value :=
  fun p =>
    if p = "7" then Except.ok (Value.num 7)
    else Except.error (String.append "cannot parse " p)

/-- A concrete read entry over a counter state: it ignores the payload and
returns the counter as a string. -/
def getValueEntry : ReadEntry Nat :=
  ⟨"get_value", fun _ => Except.ok Value.unit,
   fun _ _ b s => (Except.ok (toString s), b)⟩

/-- A concrete read entry whose decoder can fail. -/
def echoEntry : ReadEntry Nat :=
  ⟨"echo_num", decodeNum,
   fun _ v b _ =>
     match v with
     | Value.num n => (Except.ok (toString n), b)
     | _ => (Except.error (ServiceError.custom "unexpected payload"), b)⟩

/-- A concrete write entry over a counter state: it stores the decoded
number into the state. -/
def setValueEntry : WriteEntry Nat :=
  ⟨"set_value", decodeNum,
   fun _ v b s =>
     match v with
     | Value.num n => (Except.ok "ok", b, n)
     | _ => (Except.error (ServiceError.custom "unexpected payload"), b, s)⟩

/-- A concrete method body that increments a counter, used to observe
whether the body ran. -/
def cbody : Budget → Nat → Except ServiceError String × Budget × Nat :=
  fun b s => (Except.ok "ok", b, s + 1)

/-- A concrete incrementing body for the metered write entry. -/
def meteredBody : Budget → Nat → Except ServiceError String × Budget × Nat :=
  fun b s => (Except.ok "ok", b, s + 1)

/-- A concrete write entry whose body is wrapped by the cycle-cost injector
with cost 10. -/
def setValueMetered : WriteEntry Nat :=
  ⟨"set_value_metered", decodeNum,
   fun _ _ b2 s2 => gen_cycles_code 10 meteredBody b2 s2⟩

/-- A concrete read-shaped body for the metered read entry: it reports the
counter as a string. -/
def meteredReadBody : Budget → Nat → Except ServiceError String × Budget :=
  fun b s => (Except.ok (toString s), b)

/-- A concrete read entry whose body is wrapped by the cycle-cost injector
with cost 10. -/
def getValueMetered : ReadEntry Nat :=
  ⟨"get_value_metered", decodeNum,
   fun _ _ b2 s2 => gen_cycles_code_read 10 meteredReadBody b2 s2⟩

/-- A service declaration with two read methods sharing one dispatch name. -/
def svDup : ServiceDef Nat :=
  ⟨[getValueEntry, getValueEntry], [], none, none⟩

/-- A collision-free service declaration without custom hooks. -/
def svPlain : ServiceDef Nat :=
  ⟨[getValueEntry], [setValueEntry], none, none⟩

/-- The service the binder generates from svPlain. -/
def gPlain : GeneratedService Nat :=
  ⟨gen_hook none, gen_hook none, read [getValueEntry], write [setValueEntry]⟩

/-- C2: a method wrapped by the cycle-cost injector first charges
sub_cycles with the build-time cost; when the budget is short the wrapped
method returns the budget failure at once and the state the body would
mutate is unchanged, and when the charge succeeds the original body runs
unchanged on the reduced budget. -/
theorem c2_metering_atomicity {α : Type} (cost : Nat)
    (body : Budget → α → Except ServiceError String × Budget × α)
    (b : Nat) (s : α) :
    (b < cost → gen_cycles_code cost body b s =
        (Except.error ServiceError.budgetExceeded, b, s)) ∧
    (cost ≤ b → gen_cycles_code cost body b s = body (b - cost) s) := by
  constructor
  · intro h
    have hns : ¬ cost ≤ b := by omega
    simp [gen_cycles_code, sub_cycles, hns]
  · intro h
    simp [gen_cycles_code, sub_cycles, h]

/-- Witness for C2: with cost 10, a budget of 5 fails with the counter
unchanged, and a budget of 25 runs the original body on budget 15. -/
theorem c2_witness :
    gen_cycles_code 10 cbody 5 (0 : Nat) =
        (Except.error ServiceError.budgetExceeded, 5, 0) ∧
      gen_cycles_code 10 cbody 25 (0 : Nat) = cbody 15 0 :=
  ⟨(c2_metering_atomicity 10 cbody 5 0).1 (by decide),
   (c2_metering_atomicity 10 cbody 25 0).2 (by decide)⟩

/-- C4: when the context's method name is absent from the relevant role's
table, the generated read and write entry points return the not-found error
carrying that name, with budget and state untouched, so no handler body
runs. -/
theorem c4_method_not_found {S : Type} (rt : List (ReadEntry S))
    (wt : List (WriteEntry S)) (ctx : CtxData) (b : Budget) (s : S)
    (hr : ∀ e ∈ rt, e.name ≠ ctx.get_service_method)
    (hw : ∀ e ∈ wt, e.name ≠ ctx.get_service_method) :
    read rt ctx b s =
        (Except.error (ServiceError.notFoundMethod ctx.get_service_method), b) ∧
      write wt ctx b s =
        (Except.error (ServiceError.notFoundMethod ctx.get_service_method), b, s) := by
  have hfr : rt.find? (fun e => e.name == ctx.get_service_method) = none := by
    rw [List.find?_eq_none]
    intro e he
    simpa using hr e he
  have hfw : wt.find? (fun e => e.name == ctx.get_service_method) = none := by
    rw [List.find?_eq_none]
    intro e he
    simpa using hw e he
  exact ⟨by simp [read, hfr], by simp [write, hfw]⟩

/-- Witness for C4: looking up an unregistered name in the concrete tables
yields the not-found error with budget and counter untouched. -/
theorem c4_witness :
    read [getValueEntry] ⟨"missing", ""⟩ 9 (42 : Nat) =
        (Except.error (ServiceError.notFoundMethod "missing"), 9) ∧
      write [setValueEntry] ⟨"missing", ""⟩ 9 (42 : Nat) =
        (Except.error (ServiceError.notFoundMethod "missing"), 9, 42) :=
  c4_method_not_found [getValueEntry] [setValueEntry] ⟨"missing", ""⟩ 9 42
    (by decide) (by decide)

/-- C5: when the method name matches but the raw payload fails to decode,
the generated entry points return the parse error carrying the underlying
decode diagnostic, with budget and state untouched, so the matched handler
is not invoked. -/
theorem c5_payload_decode_error {S : Type} (ctx : CtxData) (b : Budget) (s : S) :
    (∀ (wt : List (WriteEntry S)) (e : WriteEntry S) (msg : String),
        wt.find? (fun x => x.name == ctx.get_service_method) = some e →
        e.decode ctx.get_payload = Except.error msg →
        write wt ctx b s = (Except.error (ServiceError.jsonParse msg), b, s)) ∧
    (∀ (rt : List (ReadEntry S)) (e : ReadEntry S) (msg : String),
        rt.find? (fun x => x.name == ctx.get_service_method) = some e →
        e.decode ctx.get_payload = Except.error msg →
        read rt ctx b s = (Except.error (ServiceError.jsonParse msg), b)) := by
  constructor
  · intro wt e msg hf hd
    simp [write, hf, hd]
  · intro rt e msg hf hd
    simp [read, hf, hd]

/-- Witness for C5: the unparseable payload "x" on a matched name yields
the parse error with the decoder's diagnostic, and the counter stays 42. -/
theorem c5_witness :
    write [setValueEntry] ⟨"set_value", "x"⟩ 9 (42 : Nat) =
        (Except.error (ServiceError.jsonParse "cannot parse x"), 9, 42) ∧
      read [echoEntry] ⟨"echo_num", "x"⟩ 9 (42 : Nat) =
        (Except.error (ServiceError.jsonParse "cannot parse x"), 9) :=
  ⟨(c5_payload_decode_error ⟨"set_value", "x"⟩ 9 42).1 [setValueEntry]
      setValueEntry "cannot parse x" rfl rfl,
   (c5_payload_decode_error ⟨"echo_num", "x"⟩ 9 42).2 [echoEntry]
      echoEntry "cannot parse x" rfl rfl⟩

/-- C6: when the name matches a registered write method and the payload
decodes, the generated write entry point invokes that method with the
context and the decoded payload and returns the method's own result
unchanged. -/
theorem c6_write_round_trip {S : Type} (wt : List (WriteEntry S))
    (ctx : CtxData) (b : Budget) (s : S) (e : WriteEntry S) (v : Value)
    (hf : wt.find? (fun x => x.name == ctx.get_service_method) = some e)
    (hd : e.decode ctx.get_payload = Except.ok v) :
    write wt ctx b s = e.body ctx v b s := by
  simp [write, hf, hd]

/-- Witness for C6: dispatching set_value with payload "7" returns exactly
the handler's own result, here success "ok" with the counter set to 7. -/
theorem c6_witness :
    write [setValueEntry] ⟨"set_value", "7"⟩ 9 (42 : Nat) =
      setValueEntry.body ⟨"set_value", "7"⟩ (Value.num 7) 9 42 :=
  c6_write_round_trip [setValueEntry] ⟨"set_value", "7"⟩ 9 42 setValueEntry
    (Value.num 7) rfl rfl

/-- C7: the binder fails at build time with the ambiguous-dispatch error
when two methods of one role share a name, and in every successfully built
service the per-role name lists are duplicate-free, so each name maps to at
most one handler per role. -/
theorem c7_unique_dispatch_names {S : Type} (sv : ServiceDef S) :
    (∀ g, gen_service_code sv = Except.ok g →
        (sv.readMethods.map ReadEntry.name).Nodup ∧
          (sv.writeMethods.map WriteEntry.name).Nodup) ∧
    (¬ (sv.readMethods.map ReadEntry.name).Nodup ∨
        ¬ (sv.writeMethods.map WriteEntry.name).Nodup →
      isAmbiguousDispatchError (gen_service_code sv) = true) := by
  constructor
  · intro g hg
    unfold gen_service_code at hg
    revert hg
    cases hr : firstDup (sv.readMethods.map ReadEntry.name) with
    | some n => intro hg; exact Except.noConfusion hg
    | none =>
      cases hw : firstDup (sv.writeMethods.map WriteEntry.name) with
      | some n => intro hg; exact Except.noConfusion hg
      | none =>
        intro hg
        exact ⟨(firstDup_eq_none_iff _).mp hr, (firstDup_eq_none_iff _).mp hw⟩
  · intro h
    unfold gen_service_code
    cases hr : firstDup (sv.readMethods.map ReadEntry.name) with
    | some n => simp [isAmbiguousDispatchError]
    | none =>
      cases hw : firstDup (sv.writeMethods.map WriteEntry.name) with
      | some n => simp [isAmbiguousDispatchError]
      | none =>
        exfalso
        rcases h with h | h
        · exact h ((firstDup_eq_none_iff _).mp hr)
        · exact h ((firstDup_eq_none_iff _).mp hw)

/-- Witness for C7: the service with two read methods named get_value fails
to build with the ambiguous-dispatch error. -/
theorem c7_witness :
    isAmbiguousDispatchError (gen_service_code svDup) = true :=
  (c7_unique_dispatch_names svDup).2 (Or.inl (by decide))

/-- C8: in every successfully built service, the synthesized hook pair
forwards to the declared custom hook methods when present and otherwise is
a no-op returning success. -/
theorem c8_hook_dispatch {S : Type} (sv : ServiceDef S)
    (g : GeneratedService S) (h : gen_service_code sv = Except.ok g) :
    (∀ f, sv.hookBefore = some f → g.hook_before = f) ∧
    (sv.hookBefore = none → ∀ s, g.hook_before s = (Except.ok (), s)) ∧
    (∀ f, sv.hookAfter = some f → g.hook_after = f) ∧
    (sv.hookAfter = none → ∀ s, g.hook_after s = (Except.ok (), s)) := by
  unfold gen_service_code at h
  split at h
  · exact Except.noConfusion h
  · split at h
    · exact Except.noConfusion h
    · have hg : g = ⟨gen_hook sv.hookBefore, gen_hook sv.hookAfter,
          read sv.readMethods, write sv.writeMethods⟩ := by
        injection h with h2
        exact h2.symm
      subst hg
      refine ⟨?_, ?_, ?_, ?_⟩
      · intro f hf
        funext s
        simp [gen_hook, hf]
      · intro hf s
        simp [gen_hook, hf]
      · intro f hf
        funext s
        simp [gen_hook, hf]
      · intro hf s
        simp [gen_hook, hf]

/-- Witness for C8: the service built from svPlain, which declares no
custom hooks, has hooks returning success and leaving the counter at 3. -/
theorem c8_witness :
    gPlain.hook_before 3 = (Except.ok (), 3) ∧
      gPlain.hook_after 3 = (Except.ok (), 3) := by
  have h := c8_hook_dispatch svPlain gPlain rfl
  exact ⟨h.2.1 rfl 3, h.2.2.2 rfl 3⟩

/-- C9: the cycle charge of a cost-annotated method runs only after the
name has matched and the payload has decoded, through the generated read
entry point and through the generated write entry point alike: a dispatch
that fails the name lookup or the payload decode leaves the budget
untouched, and for a matched, decoded method wrapped by the injector the
charge is the first observable effect, so a short budget fails with the
budget error and the incoming budget and state intact. -/
theorem c9_charge_only_after_match_and_decode {S : Type}
    (rt : List (ReadEntry S)) (wt : List (WriteEntry S))
    (ctx : CtxData) (b : Nat) (s : S) :
    (rt.find? (fun x => x.name == ctx.get_service_method) = none →
        (read rt ctx b s).2 = b) ∧
    (∀ (e : ReadEntry S) (msg : String),
        rt.find? (fun x => x.name == ctx.get_service_method) = some e →
        e.decode ctx.get_payload = Except.error msg →
        (read rt ctx b s).2 = b) ∧
    (∀ (e : ReadEntry S) (v : Value) (cost : Nat)
        (f : CtxData → Value → Budget → S → Except ServiceError String × Budget),
        rt.find? (fun x => x.name == ctx.get_service_method) = some e →
        e.decode ctx.get_payload = Except.ok v →
        e.body = (fun c w b2 s2 => gen_cycles_code_read cost (f c w) b2 s2) →
        b < cost →
        read rt ctx b s = (Except.error ServiceError.budgetExceeded, b)) ∧
    (wt.find? (fun x => x.name == ctx.get_service_method) = none →
        (write wt ctx b s).2.1 = b) ∧
    (∀ (e : WriteEntry S) (msg : String),
        wt.find? (fun x => x.name == ctx.get_service_method) = some e →
        e.decode ctx.get_payload = Except.error msg →
        (write wt ctx b s).2.1 = b) ∧
    (∀ (e : WriteEntry S) (v : Value) (cost : Nat)
        (f : CtxData → Value → Budget → S → Except ServiceError String × Budget × S),
        wt.find? (fun x => x.name == ctx.get_service_method) = some e →
        e.decode ctx.get_payload = Except.ok v →
        e.body = (fun c w b2 s2 => gen_cycles_code cost (f c w) b2 s2) →
        b < cost →
        write wt ctx b s = (Except.error ServiceError.budgetExceeded, b, s)) := by
  refine ⟨?_, ?_, ?_, ?_, ?_, ?_⟩
  · intro hf
    simp [read, hf]
  · intro e msg hf hd
    simp [read, hf, hd]
  · intro e v cost f hf hd hb hlt
    have hns : ¬ cost ≤ b := by omega
    simp [read, hf, hd, hb, gen_cycles_code_read, sub_cycles, hns]
  · intro hf
    simp [write, hf]
  · intro e msg hf hd
    simp [write, hf, hd]
  · intro e v cost f hf hd hb hlt
    have hns : ¬ cost ≤ b := by omega
    simp [write, hf, hd, hb, gen_cycles_code, sub_cycles, hns]

/-- Witness for C9: the metered read entry and the metered write entry,
both with cost 10, dispatched with a matching name and a decodable payload
but budget 5, fail with the budget error through their respective entry
points, leaving budget 5 and counter 0 intact. -/
theorem c9_witness :
    read [getValueMetered] ⟨"get_value_metered", "7"⟩ 5 (0 : Nat) =
        (Except.error ServiceError.budgetExceeded, 5) ∧
      write [setValueMetered] ⟨"set_value_metered", "7"⟩ 5 (0 : Nat) =
        (Except.error ServiceError.budgetExceeded, 5, 0) :=
  ⟨(c9_charge_only_after_match_and_decode [getValueMetered] [setValueMetered]
      ⟨"get_value_metered", "7"⟩ 5 0).2.2.1 getValueMetered (Value.num 7) 10
    (fun _ _ => meteredReadBody) rfl rfl rfl (by decide),
   (c9_charge_only_after_match_and_decode [getValueMetered] [setValueMetered]
      ⟨"set_value_metered", "7"⟩ 5 0).2.2.2.2.2 setValueMetered (Value.num 7) 10
    (fun _ _ => meteredBody) rfl rfl rfl (by decide)⟩

/-- C10: the hook_before and hook_after attribute entry points return the
annotated item's token stream unchanged for every attribute stream and
every item, so every method shape is accepted as a hook without any
signature validation. -/
theorem c10_hooks_are_identity :
    ∀ (attrStream item : TokenStream),
      hook_before attrStream item = item ∧ hook_after attrStream item = item :=
  fun _ _ => ⟨rfl, rfl⟩

end Muta
